import Mathlib

/-!
Verification of the Flask service in `src/frontend.py` (AI test-case generator).

The service is transport glue around three opaque collaborators: the code
analyzer (`code_analyzer.analyze`), the test generator
(`test_generator.generate`) and Google Cloud Storage.  We embed the two
request handlers (`generate_tests`, `analyze_code`) and the two storage
helpers (`download_from_gcs`, `upload_to_gcs`) as pure Lean functions
parameterised by an environment `Env` that supplies the collaborators'
behaviour.  Each handler returns the HTTP response together with an explicit
trace of the externally visible events it performed (storage reads/writes,
analyzer and model calls, and the point at which required-field validation
passed), so that ordering properties of the pipeline can be stated.

Python conventions that matter here and are modelled explicitly:
an exception raised inside the handler's `try` block is converted by the
generic `except` clause into a 500 response; `dict.get` returns `None` for
an absent key (modelled with `Option`); Python truthiness of a string is
non-emptiness, of `None` falsity, and of a dict non-emptiness.
-/

deriving instance DecidableEq for Except

namespace Frontend

/-- Python exception values that the code in `frontend.py` can raise or
receive from its collaborators. -/
inductive PyErr where
  | valueError (msg : String)
  | indexError (msg : String)
  | attributeError (msg : String)
  | keyError (key : String)
  | other (msg : String)
deriving DecidableEq

/-- Python `str(e)` on an exception: the message, except that `KeyError`
renders its key in quotes. -/
def PyErr.str : PyErr → String
  | .valueError m => m
  | .indexError m => m
  | .attributeError m => m
  | .keyError k => "'" ++ k ++ "'"
  | .other m => m

/-- One callable unit as inventoried by the analyzer (spec §3). The handler
only ever takes the length of the functions list. -/
structure FunctionDescriptor where
  name : String
  params : List String
  returnType : Option String := none
  complexity : Nat := 0
deriving DecidableEq

/-- The `analysis` sub-dictionary of a successful analyzer result:
`{'functions': ..., 'summary': ...}`. -/
structure Analysis where
  functions : List FunctionDescriptor
  summary : String
deriving DecidableEq

/-- Result dictionary of `code_analyzer.analyze`: a `success` flag, and the
optional keys `analysis` and `error` (absent keys are `none`; the handler's
subscript `analysis_result['analysis']` raises `KeyError` when absent). -/
structure AnalysisResult where
  success : Bool
  analysis : Option Analysis := none
  error : Option String := none
deriving DecidableEq

/-- Result dictionary of `test_generator.generate`:
`{'test_code': ..., 'test_count': ...}`. -/
structure GeneratedTests where
  test_code : String
  test_count : Nat
deriving DecidableEq

/-- The fields of `datetime.now()` that `strftime('%Y%m%d_%H%M%S')` reads.
Python's `datetime` guarantees `year ≤ 9999`. -/
structure PyDateTime where
  year : Nat
  month : Nat
  day : Nat
  hour : Nat
  minute : Nat
  second : Nat
deriving DecidableEq

/-- The parsed JSON request body as the handlers read it.  Each `Option`
field is `none` when the key is absent or null.  `hasOtherKeys` records
whether the dictionary carries any further keys (or null-valued ones), which
matters only for Python's truthiness test `if not data` on the dict. -/
structure ReqBody where
  source_code : Option String := none
  gcs_path : Option String := none
  language : Option String := none
  test_types : Option (List String) := none
  framework : Option String := none
  hasOtherKeys : Bool := false
deriving DecidableEq

/-- Python truthiness of the body dict: non-empty, i.e. it has at least one
key. -/
def ReqBody.isTruthy (d : ReqBody) : Bool :=
  d.source_code.isSome || d.gcs_path.isSome || d.language.isSome ||
    d.test_types.isSome || d.framework.isSome || d.hasOtherKeys

/-- Python truthiness of a possibly-absent string value: `None` and `""`
are falsy. -/
def optTruthy : Option String → Bool
  | none => false
  | some s => !s.isEmpty

/-- The success payload of `POST /generate-tests` (lines 96-108 of
`frontend.py`), with the `metadata` sub-object flattened into the record. -/
structure GenResponse where
  success : Bool
  generated_tests : String
  gcs_path : String
  functions_analyzed : Nat
  test_cases_generated : Nat
  test_types : List String
  framework : String
  timestamp : String
  analysis_summary : String
deriving DecidableEq

/-- The JSON body of a response: an error object `{'error': ..}` with an
optional `details` key (the outer `Option` is key presence, the inner one the
possibly-null value), the verbatim `AnalysisResult` returned by
`/analyze-code`, or the success payload of `/generate-tests`. -/
inductive RespBody where
  | errObj (error : String) (details : Option (Option String))
  | analysisObj (result : AnalysisResult)
  | genObj (result : GenResponse)
deriving DecidableEq

/-- A Flask response pair `(jsonify(body), status)`. -/
structure Response where
  body : RespBody
  status : Nat
deriving DecidableEq

/-- Externally visible events of one request, in the order the handler
performs them.  `requiredOk` marks the point where the handler's
required-field validation passed. -/
inductive Event where
  | requiredOk
  | storageRead (path : String)
  | analyzeCall (source : String) (language : String)
  | generateCall
  | storageWrite (path : String)
deriving DecidableEq

/-- Behaviour of the opaque collaborators: the GCS client (reads keyed by
bucket and blob name, writes keyed by destination path), the code analyzer
and the test generator, plus the configured default bucket. -/
structure Env where
  bucketName : String
  getObject : String → String → Except PyErr String
  putObject : String → String → Except PyErr Unit
  analyze : String → String → AnalysisResult
  generate : String → Analysis → String → List String → String →
    Except PyErr GeneratedTests

/-- Formatting helpers for `strftime('%Y%m%d_%H%M%S')`: the decimal digit
character of `n mod 10`. -/
def digitChar (n : Nat) : Char := Char.ofNat (48 + n % 10)

/-- Two-digit zero-padded decimal field (`%m`, `%d`, `%H`, `%M`, `%S`). -/
def pad2l (n : Nat) : List Char := [digitChar (n / 10), digitChar n]

/-- Four-digit zero-padded decimal field (`%Y`; Python years are ≤ 9999). -/
def pad4l (n : Nat) : List Char :=
  [digitChar (n / 1000), digitChar (n / 100), digitChar (n / 10), digitChar n]

/-- The timestamp string `datetime.now().strftime('%Y%m%d_%H%M%S')` of
line 91. -/
def strftime_Ymd_HMS (t : PyDateTime) : String :=
  String.mk (pad4l t.year ++ pad2l t.month ++ pad2l t.day ++ ['_'] ++
    pad2l t.hour ++ pad2l t.minute ++ pad2l t.second)

/-- Python `str.split(sep, 1)` on a character list, with an accumulator for
the characters read before the first separator. -/
def splitOn1 (sep : Char) : List Char → List Char → List String
  | [], acc => [String.mk acc.reverse]
  | c :: cs, acc =>
    if c = sep then [String.mk acc.reverse, String.mk cs]
    else splitOn1 sep cs (c :: acc)

/-- Python `s.split(sep, 1)`: one or two pieces. -/
def pySplit1 (l : List Char) (sep : Char) : List String := splitOn1 sep l []

/-- Lines 145-157, `download_from_gcs`: reject paths that do not start with
`gs://`, split the remainder on the first `/` into bucket and blob name
(raising `IndexError` when there is no `/`), then perform the network read.
A `storageRead` event is emitted exactly when the network is touched. -/
def download_from_gcs (env : Env) (gcs_path : String) :
    Except PyErr String × List Event :=
  if gcs_path.data.take 5 = "gs://".data then
    match pySplit1 (gcs_path.data.drop 5) '/' with
    | [] => (.error (.indexError "list index out of range"), [])
    | [_] => (.error (.indexError "list index out of range"), [])
    | bucket_name :: blob_name :: _ =>
      match env.getObject bucket_name blob_name with
      | .ok txt => (.ok txt, [.storageRead gcs_path])
      | .error e => (.error e, [.storageRead gcs_path])
  else
    (.error (.valueError "GCS path must start with gs://"), [])

/-- Lines 160-167, `upload_to_gcs`: write `content` to `destination_path` in
the configured bucket and return the canonical `gs://` address. -/
def upload_to_gcs (env : Env) (content : String) (destination_path : String) :
    Except PyErr String × List Event :=
  match env.putObject destination_path content with
  | .ok _ =>
    (.ok ("gs://" ++ env.bucketName ++ "/" ++ destination_path),
     [.storageWrite destination_path])
  | .error e => (.error e, [.storageWrite destination_path])

/-- Lines 65-66 of `generate_tests`: `if gcs_path: source_code =
download_from_gcs(gcs_path)`.  The caller has already checked that
`source_code` is truthy whenever `gcs_path` is falsy, so the `getD ""`
default in the no-download branch is never the value actually analyzed. -/
def gt_resolveSource (env : Env) (source_code gcs_path : Option String) :
    Except PyErr String × List Event :=
  match gcs_path with
  | some gp =>
    if gp.isEmpty then (.ok (source_code.getD ""), [])
    else download_from_gcs env gp
  | none => (.ok (source_code.getD ""), [])

/-- Lines 72-110 of `generate_tests`: analyze, reject failed analyses with a
400, generate the tests (any raised exception propagates as `.error`),
upload the result under the timestamped key, and assemble the 200 payload. -/
def gt_analyzeAndGenerate (env : Env) (now : PyDateTime)
    (src language : String) (test_types : List String) (framework : String) :
    Except PyErr Response × List Event :=
  if (env.analyze src language).success = false then
    (.ok ⟨.errObj "Code analysis failed" (some (env.analyze src language).error), 400⟩,
     [.analyzeCall src language])
  else
    match (env.analyze src language).analysis with
    | none => (.error (.keyError "analysis"), [.analyzeCall src language])
    | some analysis =>
      match env.generate src analysis language test_types framework with
      | .error e => (.error e, [.analyzeCall src language, .generateCall])
      | .ok generated_tests =>
        match upload_to_gcs env generated_tests.test_code
            ("generated_tests/" ++ strftime_Ymd_HMS now ++ "_tests.py") with
        | (.error e, utr) =>
          (.error e, [.analyzeCall src language, .generateCall] ++ utr)
        | (.ok gcs_url, utr) =>
          (.ok ⟨.genObj {
              success := true
              generated_tests := generated_tests.test_code
              gcs_path := gcs_url
              functions_analyzed := analysis.functions.length
              test_cases_generated := generated_tests.test_count
              test_types := test_types
              framework := framework
              timestamp := strftime_Ymd_HMS now
              analysis_summary := analysis.summary }, 200⟩,
           [.analyzeCall src language, .generateCall] ++ utr)

/-- Lines 37-116, the `POST /generate-tests` handler.  `body` is the value
of `request.get_json()` (`none` for an absent or non-JSON body).  The
`try`/`except` of lines 51 and 112-116 turns any raised exception into a
500 response `{'error': 'Internal server error', 'details': str(e)}`. -/
def generate_tests (env : Env) (now : PyDateTime) (body : Option ReqBody) :
    Response × List Event :=
  match body with
  | none => (⟨.errObj "Request body is required" none, 400⟩, [])
  | some data =>
    if data.isTruthy = false then
      (⟨.errObj "Request body is required" none, 400⟩, [])
    else if (!optTruthy data.source_code && !optTruthy data.gcs_path) = true then
      (⟨.errObj "Either source_code or gcs_path is required" none, 400⟩, [])
    else
      match gt_resolveSource env data.source_code data.gcs_path with
      | (.error e, tr) =>
        (⟨.errObj "Internal server error" (some (some e.str)), 500⟩,
         .requiredOk :: tr)
      | (.ok src, tr) =>
        match gt_analyzeAndGenerate env now src (data.language.getD "python")
            (data.test_types.getD ["unit", "edge", "negative"])
            (data.framework.getD "pytest") with
        | (.error e, tr2) =>
          (⟨.errObj "Internal server error" (some (some e.str)), 500⟩,
           .requiredOk :: (tr ++ tr2))
        | (.ok resp, tr2) => (resp, .requiredOk :: (tr ++ tr2))

/-- Lines 126-130 of `analyze_code`: read the two fields and, when
`gcs_path` is truthy, download it (before any validation).  The result keeps
the `Option` because `source_code` may still be `None` afterwards. -/
def ac_resolveSource (env : Env) (source_code gcs_path : Option String) :
    Except PyErr (Option String) × List Event :=
  match gcs_path with
  | some gp =>
    if gp.isEmpty then (.ok source_code, [])
    else
      match download_from_gcs env gp with
      | (.ok txt, tr) => (.ok (some txt), tr)
      | (.error e, tr) => (.error e, tr)
  | none => (.ok source_code, [])

/-- Lines 119-142, the `POST /analyze-code` handler.  A `none` body makes
`data.get('source_code')` raise `AttributeError`, which the generic handler
of line 141-142 converts to a 500 with `str(e)` as the error text.  The
required-field check of line 132 runs only after the optional download, and
the analyzer's result dictionary is returned verbatim with status 200. -/
def analyze_code (env : Env) (body : Option ReqBody) :
    Response × List Event :=
  match body with
  | none =>
    (⟨.errObj "'NoneType' object has no attribute 'get'" none, 500⟩, [])
  | some data =>
    match ac_resolveSource env data.source_code data.gcs_path with
    | (.error e, tr) => (⟨.errObj e.str none, 500⟩, tr)
    | (.ok source_code, tr) =>
      match source_code with
      | none => (⟨.errObj "source_code or gcs_path is required" none, 400⟩, tr)
      | some src =>
        if src.isEmpty then
          (⟨.errObj "source_code or gcs_path is required" none, 400⟩, tr)
        else
          (⟨.analysisObj (env.analyze src (data.language.getD "python")), 200⟩,
           tr ++ [.requiredOk, .analyzeCall src (data.language.getD "python")])

/-! Predicates on events and traces, used to state ordering properties. -/

/-- The event is a storage (network) read. -/
def isStorageRead : Event → Bool
  | .storageRead _ => true
  | _ => false

/-- The event is a storage (network) write. -/
def isStorageWrite : Event → Bool
  | .storageWrite _ => true
  | _ => false

/-- The event is a call to the code analyzer. -/
def isAnalyzeCall : Event → Bool
  | .analyzeCall _ _ => true
  | _ => false

/-- The event is a call to the test generator (the model call). -/
def isGenerateCall : Event → Bool
  | .generateCall => true
  | _ => false

/-- The event marks required-field validation having passed. -/
def isRequiredOk : Event → Bool
  | .requiredOk => true
  | _ => false

/-- The event is any collaborator call: a storage read or write, an analyzer
call, or a model call. -/
def isExternalCall (e : Event) : Bool :=
  isStorageRead e || isStorageWrite e || isAnalyzeCall e || isGenerateCall e

/-- No `bad` event occurs strictly before the first `marker` event of the
trace (also true when no `marker` event occurs and no `bad` one does
either). -/
def noneBefore (bad marker : Event → Bool) : List Event → Bool
  | [] => true
  | e :: tr => if marker e then true else !bad e && noneBefore bad marker tr

/-- No `bad` event occurs at or after the first `marker` event of the
trace. -/
def noneAfter (bad marker : Event → Bool) : List Event → Bool
  | [] => true
  | e :: tr => if marker e then (e :: tr).all (fun x => !bad x)
      else noneAfter bad marker tr

/-- The string has the shape `YYYYMMDD_HHMMSS`: fifteen characters, an
underscore in the middle, digits everywhere else. -/
def timestampFormatOk (s : String) : Bool :=
  match s.data with
  | [y1, y2, y3, y4, mo1, mo2, d1, d2, u, h1, h2, mi1, mi2, s1, s2] =>
    ([y1, y2, y3, y4, mo1, mo2, d1, d2, h1, h2, mi1, mi2, s1, s2].all Char.isDigit)
      && (u == '_')
  | _ => false

/-- The address has the `scheme://bucket/key` shape the service accepts: a
`gs://` scheme and at least one `/` separating bucket from key. -/
def gcsWellFormed (p : String) : Bool :=
  decide (p.data.take 5 = "gs://".data) && decide ('/' ∈ p.data.drop 5)

/-! Concrete environments and requests used by witnesses and
counterexamples. -/

/-- An environment whose collaborators all succeed. -/
def envHappy : Env where
  bucketName := "ai-test-generator-bucket"
  getObject := fun _ _ => .ok "def add(a, b): return a + b"
  putObject := fun _ _ => .ok ()
  analyze := fun _ _ =>
    { success := true
      analysis := some
        { functions := [{ name := "add", params := ["a", "b"] }]
          summary := "1 function" }
      error := none }
  generate := fun _ _ _ _ _ =>
    .ok { test_code := "def test_add(): assert add(1, 2) == 3", test_count := 1 }

/-- An environment whose analyzer reports failure on every input. -/
def envAnalyzeFail : Env :=
  { envHappy with
    analyze := fun _ _ =>
      { success := false, analysis := none, error := some "Unsupported language" } }

/-- An environment whose test generator raises on every input. -/
def envGenFail : Env :=
  { envHappy with generate := fun _ _ _ _ _ => .error (.other "quota exceeded") }

/-- A request supplying the source inline. -/
def reqInline : ReqBody := { source_code := some "def add(a, b): return a + b" }

/-- A request supplying only a GCS path. -/
def reqGcs : ReqBody := { gcs_path := some "gs://bucket/code.py" }

/-- A request supplying both an inline source and a GCS path. -/
def reqBoth : ReqBody :=
  { source_code := some "inline", gcs_path := some "gs://bucket/code.py" }

/-- The empty JSON object as a request body. -/
def reqEmpty : ReqBody := {}

/-- A request whose body has a key but neither source field. -/
def reqOnlyLang : ReqBody := { language := some "python" }

/-- A request with a malformed storage path. -/
def reqBadPath : ReqBody := { gcs_path := some "not-a-path" }

/-- A fixed generation instant, rendering as `20261012_030405`. -/
def dt0 : PyDateTime :=
  { year := 2026, month := 10, day := 12, hour := 3, minute := 4, second := 5 }

/-- The success payload produced by `envHappy` for `reqInline` at `dt0`. -/
def rHappy : GenResponse :=
  { success := true
    generated_tests := "def test_add(): assert add(1, 2) == 3"
    gcs_path := "gs://ai-test-generator-bucket/generated_tests/20261012_030405_tests.py"
    functions_analyzed := 1
    test_cases_generated := 1
    test_types := ["unit", "edge", "negative"]
    framework := "pytest"
    timestamp := "20261012_030405"
    analysis_summary := "1 function" }

example :
    (generate_tests envHappy dt0 (some reqInline)).1 =
      ⟨RespBody.genObj rHappy, 200⟩ := by decide

example : strftime_Ymd_HMS dt0 = "20261012_030405" := by decide

example :
    (generate_tests envHappy dt0 (some reqInline)).1.status = 200 := by decide

example :
    (generate_tests envHappy dt0 (some reqGcs)).2 =
      [Event.requiredOk, Event.storageRead "gs://bucket/code.py",
       Event.analyzeCall "def add(a, b): return a + b" "python",
       Event.generateCall,
       Event.storageWrite "generated_tests/20261012_030405_tests.py"] := by decide

example :
    (analyze_code envHappy (some reqGcs)).2 =
      [Event.storageRead "gs://bucket/code.py", Event.requiredOk,
       Event.analyzeCall "def add(a, b): return a + b" "python"] := by decide

example :
    (generate_tests envHappy dt0 (some reqBadPath)).1.status = 500 := by decide

example :
    download_from_gcs envHappy "gs://bucket-only" =
      (.error (.indexError "list index out of range"), []) := by decide

/-! Helper lemmas about the formatting and storage helpers. -/

theorem digitChar_isDigit (n : Nat) : (digitChar n).isDigit = true := by
  have h10 : n % 10 = 0 ∨ n % 10 = 1 ∨ n % 10 = 2 ∨ n % 10 = 3 ∨ n % 10 = 4 ∨
      n % 10 = 5 ∨ n % 10 = 6 ∨ n % 10 = 7 ∨ n % 10 = 8 ∨ n % 10 = 9 := by omega
  unfold digitChar
  rcases h10 with h | h | h | h | h | h | h | h | h | h <;> rw [h] <;> decide

theorem strftime_format (t : PyDateTime) :
    timestampFormatOk (strftime_Ymd_HMS t) = true := by
  simp [timestampFormatOk, strftime_Ymd_HMS, pad4l, pad2l, digitChar_isDigit]

theorem upload_to_gcs_trace (env : Env) (c p : String) :
    (upload_to_gcs env c p).2 = [Event.storageWrite p] := by
  unfold upload_to_gcs
  split <;> rfl

theorem upload_to_gcs_ok (env : Env) (c p u : String) (tr : List Event)
    (h : upload_to_gcs env c p = (Except.ok u, tr)) :
    u = "gs://" ++ env.bucketName ++ "/" ++ p ∧ tr = [Event.storageWrite p] := by
  unfold upload_to_gcs at h
  split at h <;> simp_all

theorem splitOn1_eq_single {sep : Char} :
    ∀ (l acc : List Char), sep ∉ l →
      splitOn1 sep l acc = [String.mk (acc.reverse ++ l)] := by
  intro l
  induction l with
  | nil => intro acc _; simp [splitOn1]
  | cons c cs ih =>
    intro acc h
    have hc : ¬ c = sep := fun hc => h (hc ▸ List.mem_cons_self c cs)
    rw [splitOn1, if_neg hc, ih (c :: acc) (fun hm => h (List.mem_cons_of_mem _ hm))]
    simp

theorem pySplit1_no_sep {sep : Char} (l : List Char) (h : sep ∉ l) :
    pySplit1 l sep = [String.mk l] := by
  rw [pySplit1, splitOn1_eq_single l [] h]
  rfl

theorem download_trace_shape (env : Env) (gp : String) :
    (download_from_gcs env gp).2 = [] ∨
      (download_from_gcs env gp).2 = [Event.storageRead gp] := by
  unfold download_from_gcs
  split
  · split
    · left; rfl
    · left; rfl
    · split
      · right; rfl
      · right; rfl
  · left; rfl

theorem download_malformed (env : Env) (gp : String)
    (h : gcsWellFormed gp = false) :
    (download_from_gcs env gp).2 = [] ∧
      ((download_from_gcs env gp).1 =
          Except.error (PyErr.valueError "GCS path must start with gs://") ∨
        (download_from_gcs env gp).1 =
          Except.error (PyErr.indexError "list index out of range")) := by
  by_cases h5 : gp.data.take 5 = "gs://".data
  · have hns : ('/' : Char) ∉ gp.data.drop 5 := by
      simp only [gcsWellFormed, h5, Bool.and_eq_false_iff] at h
      rcases h with h | h
      · simp at h
      · exact of_decide_eq_false h
    unfold download_from_gcs
    rw [if_pos h5, pySplit1_no_sep _ hns]
    exact ⟨rfl, Or.inr rfl⟩
  · unfold download_from_gcs
    rw [if_neg h5]
    exact ⟨rfl, Or.inl rfl⟩

theorem gt_resolve_trace (env : Env) (sc gcs : Option String) :
    (gt_resolveSource env sc gcs).2 = [] ∨
      ∃ gp, gcs = some gp ∧
        (gt_resolveSource env sc gcs).2 = [Event.storageRead gp] := by
  rcases gcs with _ | gp
  · left; rfl
  · by_cases hgp : gp.isEmpty = true
    · left; simp [gt_resolveSource, hgp]
    · rcases download_trace_shape env gp with h | h
      · left; simpa [gt_resolveSource, hgp] using h
      · right; exact ⟨gp, rfl, by simpa [gt_resolveSource, hgp] using h⟩

theorem aag_analyzeFail (env : Env) (now : PyDateTime) (src lang : String)
    (tys : List String) (fw : String)
    (h : (env.analyze src lang).success = false) :
    gt_analyzeAndGenerate env now src lang tys fw =
      (Except.ok ⟨.errObj "Code analysis failed" (some (env.analyze src lang).error), 400⟩,
       [Event.analyzeCall src lang]) := by
  unfold gt_analyzeAndGenerate
  rw [if_pos h]

theorem aag_genfail_cases (env : Env) (now : PyDateTime) (src lang : String)
    (tys : List String) (fw : String)
    (hgen : ∀ s a l t f, ∃ e, env.generate s a l t f = Except.error e) :
    gt_analyzeAndGenerate env now src lang tys fw =
        (Except.ok ⟨.errObj "Code analysis failed" (some (env.analyze src lang).error), 400⟩,
         [Event.analyzeCall src lang]) ∨
      gt_analyzeAndGenerate env now src lang tys fw =
        (Except.error (PyErr.keyError "analysis"), [Event.analyzeCall src lang]) ∨
      ∃ e, gt_analyzeAndGenerate env now src lang tys fw =
        (Except.error e, [Event.analyzeCall src lang, Event.generateCall]) := by
  unfold gt_analyzeAndGenerate
  split
  · left; rfl
  · split
    · right; left; rfl
    · rename_i analysis heq
      obtain ⟨e, he⟩ := hgen src analysis lang tys fw
      right; right
      exact ⟨e, by rw [he]⟩

theorem ac_resolve_trace_eq (env : Env) (sc : Option String) (gp : String)
    (hgp : gp.isEmpty = false) :
    (ac_resolveSource env sc (some gp)).2 = (download_from_gcs env gp).2 := by
  simp only [ac_resolveSource]
  rw [if_neg (by simp [hgp] : ¬gp.isEmpty = true)]
  split <;> (rename_i heq; rw [heq])

theorem ac_resolve_trace (env : Env) (sc gcs : Option String) :
    (ac_resolveSource env sc gcs).2 = [] ∨
      ∃ gp, gcs = some gp ∧
        (ac_resolveSource env sc gcs).2 = [Event.storageRead gp] := by
  rcases gcs with _ | gp
  · left; rfl
  · by_cases hgp : gp.isEmpty = true
    · left; simp [ac_resolveSource, hgp]
    · have heqtr := ac_resolve_trace_eq env sc gp (by simpa using hgp)
      rcases download_trace_shape env gp with h | h
      · left; rw [heqtr, h]
      · right; exact ⟨gp, rfl, by rw [heqtr, h]⟩

theorem gt_trace_head (env : Env) (now : PyDateTime) (body : Option ReqBody) :
    (generate_tests env now body).2 = [] ∨
      ∃ tl, (generate_tests env now body).2 = Event.requiredOk :: tl := by
  rcases body with _ | data
  · left; rfl
  · simp only [generate_tests]
    split
    · left; rfl
    · split
      · left; rfl
      · split
        · right; exact ⟨_, rfl⟩
        · split
          · right; exact ⟨_, rfl⟩
          · right; exact ⟨_, rfl⟩

/-! Characterisation lemmas: one equation per control-flow branch of each
handler, keyed by hypotheses on the collaborators' results. -/

theorem generate_tests_emptyBody (env : Env) (now : PyDateTime) (data : ReqBody)
    (hT : data.isTruthy = false) :
    generate_tests env now (some data) =
      (⟨.errObj "Request body is required" none, 400⟩, []) := by
  simp [generate_tests, hT]

theorem generate_tests_noFields (env : Env) (now : PyDateTime) (data : ReqBody)
    (hT : data.isTruthy = true)
    (hE : (!optTruthy data.source_code && !optTruthy data.gcs_path) = true) :
    generate_tests env now (some data) =
      (⟨.errObj "Either source_code or gcs_path is required" none, 400⟩, []) := by
  simp [generate_tests, hT, hE]

theorem generate_tests_resolveErr (env : Env) (now : PyDateTime) (data : ReqBody)
    (e : PyErr) (tr : List Event)
    (hT : data.isTruthy = true)
    (hE : (!optTruthy data.source_code && !optTruthy data.gcs_path) = false)
    (heq : gt_resolveSource env data.source_code data.gcs_path = (Except.error e, tr)) :
    generate_tests env now (some data) =
      (⟨.errObj "Internal server error" (some (some e.str)), 500⟩,
       Event.requiredOk :: tr) := by
  simp [generate_tests, hT, hE, heq]

theorem generate_tests_raise (env : Env) (now : PyDateTime) (data : ReqBody)
    (src : String) (tr : List Event) (e : PyErr) (tr2 : List Event)
    (hT : data.isTruthy = true)
    (hE : (!optTruthy data.source_code && !optTruthy data.gcs_path) = false)
    (heq : gt_resolveSource env data.source_code data.gcs_path = (Except.ok src, tr))
    (ha : gt_analyzeAndGenerate env now src (data.language.getD "python")
        (data.test_types.getD ["unit", "edge", "negative"])
        (data.framework.getD "pytest") = (Except.error e, tr2)) :
    generate_tests env now (some data) =
      (⟨.errObj "Internal server error" (some (some e.str)), 500⟩,
       Event.requiredOk :: (tr ++ tr2)) := by
  simp [generate_tests, hT, hE, heq, ha]

theorem generate_tests_run (env : Env) (now : PyDateTime) (data : ReqBody)
    (src : String) (tr : List Event) (resp : Response) (tr2 : List Event)
    (hT : data.isTruthy = true)
    (hE : (!optTruthy data.source_code && !optTruthy data.gcs_path) = false)
    (heq : gt_resolveSource env data.source_code data.gcs_path = (Except.ok src, tr))
    (ha : gt_analyzeAndGenerate env now src (data.language.getD "python")
        (data.test_types.getD ["unit", "edge", "negative"])
        (data.framework.getD "pytest") = (Except.ok resp, tr2)) :
    generate_tests env now (some data) = (resp, Event.requiredOk :: (tr ++ tr2)) := by
  simp [generate_tests, hT, hE, heq, ha]

theorem analyze_code_err (env : Env) (data : ReqBody) (e : PyErr) (tr : List Event)
    (heq : ac_resolveSource env data.source_code data.gcs_path = (Except.error e, tr)) :
    analyze_code env (some data) = (⟨.errObj e.str none, 500⟩, tr) := by
  simp [analyze_code, heq]

theorem analyze_code_noSource (env : Env) (data : ReqBody) (sc : Option String)
    (tr : List Event)
    (heq : ac_resolveSource env data.source_code data.gcs_path = (Except.ok sc, tr))
    (hsc : optTruthy sc = false) :
    analyze_code env (some data) =
      (⟨.errObj "source_code or gcs_path is required" none, 400⟩, tr) := by
  rcases sc with _ | src
  · simp [analyze_code, heq]
  · have hsrc : src.isEmpty = true := by simpa [optTruthy] using hsc
    simp [analyze_code, heq, hsrc]

theorem analyze_code_200 (env : Env) (data : ReqBody) (src : String) (tr : List Event)
    (heq : ac_resolveSource env data.source_code data.gcs_path = (Except.ok (some src), tr))
    (hsrc : src.isEmpty = false) :
    analyze_code env (some data) =
      (⟨.analysisObj (env.analyze src (data.language.getD "python")), 200⟩,
       tr ++ [Event.requiredOk, Event.analyzeCall src (data.language.getD "python")]) := by
  simp [analyze_code, heq, hsrc]

theorem aag_keyErr (env : Env) (now : PyDateTime) (src lang : String)
    (tys : List String) (fw : String)
    (hs : (env.analyze src lang).success = true)
    (han : (env.analyze src lang).analysis = none) :
    gt_analyzeAndGenerate env now src lang tys fw =
      (Except.error (PyErr.keyError "analysis"), [Event.analyzeCall src lang]) := by
  simp [gt_analyzeAndGenerate, hs, han]

theorem aag_genErr (env : Env) (now : PyDateTime) (src lang : String)
    (tys : List String) (fw : String) (a : Analysis) (e : PyErr)
    (hs : (env.analyze src lang).success = true)
    (han : (env.analyze src lang).analysis = some a)
    (hg : env.generate src a lang tys fw = Except.error e) :
    gt_analyzeAndGenerate env now src lang tys fw =
      (Except.error e, [Event.analyzeCall src lang, Event.generateCall]) := by
  simp [gt_analyzeAndGenerate, hs, han, hg]

theorem aag_200 (env : Env) (now : PyDateTime) (src lang : String)
    (tys : List String) (fw : String) (a : Analysis) (g : GeneratedTests)
    (hs : (env.analyze src lang).success = true)
    (han : (env.analyze src lang).analysis = some a)
    (hg : env.generate src a lang tys fw = Except.ok g)
    (hput : env.putObject ("generated_tests/" ++ strftime_Ymd_HMS now ++ "_tests.py")
        g.test_code = Except.ok ()) :
    gt_analyzeAndGenerate env now src lang tys fw =
      (Except.ok ⟨.genObj {
          success := true
          generated_tests := g.test_code
          gcs_path := "gs://" ++ env.bucketName ++ "/" ++
            ("generated_tests/" ++ strftime_Ymd_HMS now ++ "_tests.py")
          functions_analyzed := a.functions.length
          test_cases_generated := g.test_count
          test_types := tys
          framework := fw
          timestamp := strftime_Ymd_HMS now
          analysis_summary := a.summary }, 200⟩,
       [Event.analyzeCall src lang, Event.generateCall,
        Event.storageWrite ("generated_tests/" ++ strftime_Ymd_HMS now ++ "_tests.py")]) := by
  simp [gt_analyzeAndGenerate, hs, han, hg, upload_to_gcs, hput]

theorem aag_uploadErr (env : Env) (now : PyDateTime) (src lang : String)
    (tys : List String) (fw : String) (a : Analysis) (g : GeneratedTests) (e : PyErr)
    (hs : (env.analyze src lang).success = true)
    (han : (env.analyze src lang).analysis = some a)
    (hg : env.generate src a lang tys fw = Except.ok g)
    (hput : env.putObject ("generated_tests/" ++ strftime_Ymd_HMS now ++ "_tests.py")
        g.test_code = Except.error e) :
    gt_analyzeAndGenerate env now src lang tys fw =
      (Except.error e,
       [Event.analyzeCall src lang, Event.generateCall,
        Event.storageWrite ("generated_tests/" ++ strftime_Ymd_HMS now ++ "_tests.py")]) := by
  simp [gt_analyzeAndGenerate, hs, han, hg, upload_to_gcs, hput]

theorem gt_resolve_gcs (env : Env) (sc : Option String) (gp : String)
    (hne : gp.isEmpty = false) :
    gt_resolveSource env sc (some gp) = download_from_gcs env gp := by
  simp [gt_resolveSource, hne]

theorem gt_resolve_inv (env : Env) (sc gcs : Option String) (src : String)
    (tr : List Event)
    (h : gt_resolveSource env sc gcs = (Except.ok src, tr)) :
    (∃ gp, gcs = some gp ∧ gp.isEmpty = false ∧
      (download_from_gcs env gp).1 = Except.ok src) ∨
    (optTruthy gcs = false ∧ sc.getD "" = src) := by
  rcases gcs with _ | gp
  · simp only [gt_resolveSource, Prod.mk.injEq, Except.ok.injEq] at h
    exact Or.inr ⟨rfl, h.1⟩
  · by_cases hgp : gp.isEmpty = true
    · simp only [gt_resolveSource, hgp, if_pos, Prod.mk.injEq, Except.ok.injEq] at h
      exact Or.inr ⟨by simp [optTruthy, hgp], h.1⟩
    · have hne : gp.isEmpty = false := by simpa using hgp
      rw [gt_resolve_gcs env sc gp hne] at h
      exact Or.inl ⟨gp, rfl, hne, by rw [h]⟩

theorem aag_trace_shape (env : Env) (now : PyDateTime) (src lang : String)
    (tys : List String) (fw : String) :
    (gt_analyzeAndGenerate env now src lang tys fw).2 = [Event.analyzeCall src lang] ∨
    (gt_analyzeAndGenerate env now src lang tys fw).2 =
      [Event.analyzeCall src lang, Event.generateCall] ∨
    (gt_analyzeAndGenerate env now src lang tys fw).2 =
      [Event.analyzeCall src lang, Event.generateCall,
       Event.storageWrite ("generated_tests/" ++ strftime_Ymd_HMS now ++ "_tests.py")] := by
  unfold gt_analyzeAndGenerate
  split
  · left; rfl
  · split
    · left; rfl
    · split
      · right; left; rfl
      · split
        · rename_i e utr heq
          have h2 := congrArg Prod.snd heq
          rw [upload_to_gcs_trace] at h2
          dsimp only at h2 ⊢
          right; right
          rw [← h2]
          rfl
        · rename_i u utr heq
          have h2 := congrArg Prod.snd heq
          rw [upload_to_gcs_trace] at h2
          dsimp only at h2 ⊢
          right; right
          rw [← h2]
          rfl

theorem aag_ok_inv (env : Env) (now : PyDateTime) (src lang : String)
    (tys : List String) (fw : String) (resp : Response) (tr2 : List Event)
    (ha : gt_analyzeAndGenerate env now src lang tys fw = (Except.ok resp, tr2)) :
    ((env.analyze src lang).success = false ∧
      resp = ⟨.errObj "Code analysis failed" (some (env.analyze src lang).error), 400⟩ ∧
      tr2 = [Event.analyzeCall src lang]) ∨
    (∃ a g, (env.analyze src lang).success = true ∧
      (env.analyze src lang).analysis = some a ∧
      env.generate src a lang tys fw = Except.ok g ∧
      resp = ⟨.genObj {
          success := true
          generated_tests := g.test_code
          gcs_path := "gs://" ++ env.bucketName ++ "/" ++
            ("generated_tests/" ++ strftime_Ymd_HMS now ++ "_tests.py")
          functions_analyzed := a.functions.length
          test_cases_generated := g.test_count
          test_types := tys
          framework := fw
          timestamp := strftime_Ymd_HMS now
          analysis_summary := a.summary }, 200⟩ ∧
      tr2 = [Event.analyzeCall src lang, Event.generateCall,
        Event.storageWrite ("generated_tests/" ++ strftime_Ymd_HMS now ++ "_tests.py")]) := by
  unfold gt_analyzeAndGenerate at ha
  split at ha
  · rename_i hs
    simp only [Prod.mk.injEq, Except.ok.injEq] at ha
    exact Or.inl ⟨hs, ha.1.symm, ha.2.symm⟩
  · rename_i hs
    have hs' : (env.analyze src lang).success = true := by simpa using hs
    split at ha
    · simp at ha
    · rename_i a han
      split at ha
      · simp at ha
      · rename_i g hg
        split at ha
        · simp at ha
        · rename_i u utr hup
          obtain ⟨hu, hutr⟩ := upload_to_gcs_ok env g.test_code _ u utr hup
          simp only [Prod.mk.injEq, Except.ok.injEq] at ha
          right
          refine ⟨a, g, hs', han, hg, ?_, ?_⟩
          · rw [← ha.1, hu]
          · rw [← ha.2, hutr]
            simp

theorem generate_tests_shape (env : Env) (now : PyDateTime) (data : ReqBody) :
    (∃ r, generate_tests env now (some data) = (r, []) ∧ r.status = 400) ∨
    (data.isTruthy = true ∧
      (!optTruthy data.source_code && !optTruthy data.gcs_path) = false ∧
      ((∃ e tr, (tr = [] ∨ ∃ gp, tr = [Event.storageRead gp]) ∧
        gt_resolveSource env data.source_code data.gcs_path = (Except.error e, tr) ∧
        generate_tests env now (some data) =
          (⟨.errObj "Internal server error" (some (some e.str)), 500⟩,
           Event.requiredOk :: tr)) ∨
      (∃ src tr, (tr = [] ∨ ∃ gp, tr = [Event.storageRead gp]) ∧
        gt_resolveSource env data.source_code data.gcs_path = (Except.ok src, tr) ∧
        ((∃ e tr2, gt_analyzeAndGenerate env now src (data.language.getD "python")
              (data.test_types.getD ["unit", "edge", "negative"])
              (data.framework.getD "pytest") = (Except.error e, tr2) ∧
            generate_tests env now (some data) =
              (⟨.errObj "Internal server error" (some (some e.str)), 500⟩,
               Event.requiredOk :: (tr ++ tr2))) ∨
          (∃ resp tr2, gt_analyzeAndGenerate env now src (data.language.getD "python")
              (data.test_types.getD ["unit", "edge", "negative"])
              (data.framework.getD "pytest") = (Except.ok resp, tr2) ∧
            generate_tests env now (some data) =
              (resp, Event.requiredOk :: (tr ++ tr2))))))) := by
  by_cases hT : data.isTruthy = true
  · by_cases hE : (!optTruthy data.source_code && !optTruthy data.gcs_path) = true
    · exact Or.inl ⟨_, generate_tests_noFields env now data hT hE, rfl⟩
    · have hE' : (!optTruthy data.source_code && !optTruthy data.gcs_path) = false := by
        simpa using hE
      right
      refine ⟨hT, hE', ?_⟩
      rcases hres : gt_resolveSource env data.source_code data.gcs_path with ⟨r, tr⟩
      have htr : tr = [] ∨ ∃ gp, tr = [Event.storageRead gp] := by
        rcases gt_resolve_trace env data.source_code data.gcs_path with h | ⟨gp, _, h⟩ <;>
          rw [hres] at h
        · exact Or.inl h
        · exact Or.inr ⟨gp, h⟩
      rcases r with e | src
      · exact Or.inl ⟨e, tr, htr, rfl,
          generate_tests_resolveErr env now data e tr hT hE' hres⟩
      · right
        rcases ha : gt_analyzeAndGenerate env now src (data.language.getD "python")
            (data.test_types.getD ["unit", "edge", "negative"])
            (data.framework.getD "pytest") with ⟨ar, tr2⟩
        rcases ar with e | resp
        · exact ⟨src, tr, htr, rfl, Or.inl ⟨e, tr2, ha,
            generate_tests_raise env now data src tr e tr2 hT hE' hres ha⟩⟩
        · exact ⟨src, tr, htr, rfl, Or.inr ⟨resp, tr2, ha,
            generate_tests_run env now data src tr resp tr2 hT hE' hres ha⟩⟩
  · exact Or.inl ⟨_, generate_tests_emptyBody env now data (by simpa using hT), rfl⟩

theorem gt_200_inv (env : Env) (now : PyDateTime) (body : Option ReqBody)
    (r : GenResponse)
    (h : (generate_tests env now body).1 = ⟨.genObj r, 200⟩) :
    ∃ data src a g,
      body = some data ∧
      (env.analyze src (data.language.getD "python")).success = true ∧
      (env.analyze src (data.language.getD "python")).analysis = some a ∧
      env.generate src a (data.language.getD "python")
        (data.test_types.getD ["unit", "edge", "negative"])
        (data.framework.getD "pytest") = Except.ok g ∧
      r = { success := true
            generated_tests := g.test_code
            gcs_path := "gs://" ++ env.bucketName ++ "/" ++
              ("generated_tests/" ++ strftime_Ymd_HMS now ++ "_tests.py")
            functions_analyzed := a.functions.length
            test_cases_generated := g.test_count
            test_types := data.test_types.getD ["unit", "edge", "negative"]
            framework := data.framework.getD "pytest"
            timestamp := strftime_Ymd_HMS now
            analysis_summary := a.summary } ∧
      Event.storageWrite ("generated_tests/" ++ strftime_Ymd_HMS now ++ "_tests.py")
        ∈ (generate_tests env now body).2 := by
  rcases body with _ | data
  · simp [generate_tests] at h
  · rcases generate_tests_shape env now data with
      ⟨r0, hgt, hst⟩ |
      ⟨hT, hE, ⟨e, tr, htr, hres, hgt⟩ |
        ⟨src, tr, htr, hres, ⟨e, tr2, ha, hgt⟩ | ⟨resp, tr2, ha, hgt⟩⟩⟩
    · rw [hgt] at h
      simp only at h
      rw [h] at hst
      simp at hst
    · rw [hgt] at h
      simp at h
    · rw [hgt] at h
      simp at h
    · rw [hgt] at h
      simp only at h
      subst h
      rcases aag_ok_inv env now src (data.language.getD "python")
          (data.test_types.getD ["unit", "edge", "negative"])
          (data.framework.getD "pytest") _ tr2 ha with
        ⟨_, hresp, _⟩ | ⟨a, g, hs, han, hg, hresp, htr2⟩
      · simp at hresp
      · simp only [Response.mk.injEq, RespBody.genObj.injEq, and_true] at hresp
        refine ⟨data, src, a, g, rfl, hs, han, hg, hresp, ?_⟩
        rw [hgt]
        simp [htr2]


/-- C10: a request with an absent or non-JSON body (so `request.get_json()`
returns `None`) yields a 500 on `POST /analyze-code` — the unguarded
`data.get` on `None` raises `AttributeError`, which the generic handler
converts to `{'error': str(e)}` with status 500 — whereas the same condition
on `POST /generate-tests` is caught by the `if not data` check and yields a
400 with error `Request body is required`: the two endpoints disagree on the
status code for a missing body. -/
theorem C10_missingBody (env : Env) (now : PyDateTime) :
    analyze_code env none =
      (⟨.errObj "'NoneType' object has no attribute 'get'" none, 500⟩, []) ∧
    generate_tests env now none =
      (⟨.errObj "Request body is required" none, 400⟩, []) :=
  ⟨rfl, rfl⟩

/-- C9: for every `gcs_path` that starts with `gs://` but contains no `/`
after that prefix, `download_from_gcs` fails with the unguarded `IndexError`
raised by `path_parts[1]`, before any network call, and never with the
malformed-address `ValueError`. -/
theorem C9_indexError (env : Env) (gp : String)
    (h5 : gp.data.take 5 = "gs://".data)
    (hns : ('/' : Char) ∉ gp.data.drop 5) :
    download_from_gcs env gp =
      (Except.error (PyErr.indexError "list index out of range"), []) ∧
    ∀ m, download_from_gcs env gp ≠
      (Except.error (PyErr.valueError m), []) := by
  have hd : download_from_gcs env gp =
      (Except.error (PyErr.indexError "list index out of range"), []) := by
    unfold download_from_gcs
    rw [if_pos h5, pySplit1_no_sep _ hns]
  refine ⟨hd, fun m hm => ?_⟩
  rw [hd] at hm
  simp at hm

/-- C9 witness: the concrete path `gs://bucket-only` hits the `IndexError`. -/
theorem C9_witness :
    download_from_gcs envHappy "gs://bucket-only" =
      (Except.error (PyErr.indexError "list index out of range"), []) :=
  (C9_indexError envHappy "gs://bucket-only" (by decide) (by decide)).1

/-- C4 counterexample: the empty JSON object is a body containing neither
`source_code` nor `gcs_path`, yet the handler's `if not data` check fires
first and the error text is `Request body is required`, not the
`Either source_code or gcs_path is required` the claim requires. -/
theorem C4_counterexample :
    (generate_tests envHappy dt0 (some reqEmpty)).1 =
      ⟨RespBody.errObj "Request body is required" none, 400⟩ ∧
    RespBody.errObj "Request body is required" none ≠
      RespBody.errObj "Either source_code or gcs_path is required" none := by
  exact ⟨rfl, by decide⟩

/-- C4 amended: a `POST /generate-tests` request whose body contains neither
`source_code` nor `gcs_path` gets status 400 with no storage, analyzer or
model call; the error text is `Either source_code or gcs_path is required`
when the body object is non-empty, and `Request body is required` when it is
empty. -/
theorem C4_amended (env : Env) (now : PyDateTime) (data : ReqBody)
    (h1 : data.source_code = none) (h2 : data.gcs_path = none) :
    (generate_tests env now (some data)).1.status = 400 ∧
    (generate_tests env now (some data)).2 = [] ∧
    (generate_tests env now (some data)).1.body =
      (if data.isTruthy = true then
        RespBody.errObj "Either source_code or gcs_path is required" none
      else RespBody.errObj "Request body is required" none) := by
  by_cases hT : data.isTruthy = true
  · simp [generate_tests, hT, h1, h2, optTruthy]
  · have hT' : data.isTruthy = false := by simpa using hT
    simp [generate_tests, hT']

/-- C4 witness: a body holding only a `language` key. -/
theorem C4_amended_witness :
    (generate_tests envHappy dt0 (some reqOnlyLang)).1.status = 400 ∧
    (generate_tests envHappy dt0 (some reqOnlyLang)).2 = [] ∧
    (generate_tests envHappy dt0 (some reqOnlyLang)).1.body =
      (if reqOnlyLang.isTruthy = true then
        RespBody.errObj "Either source_code or gcs_path is required" none
      else RespBody.errObj "Request body is required" none) :=
  C4_amended envHappy dt0 reqOnlyLang rfl rfl

/-- C1 counterexample: a request on which the analyzer reports
`success=false` still gets HTTP status 200 from `POST /analyze-code`, with
the failed `AnalysisResult` returned verbatim — the claim requires 400. -/
theorem C1_counterexample :
    (analyze_code envAnalyzeFail (some reqInline)).1.status = 200 ∧
    (analyze_code envAnalyzeFail (some reqInline)).1.body =
      RespBody.analysisObj
        { success := false, analysis := none, error := some "Unsupported language" } := by
  decide

/-- C1 amended: when the analyzer reports `success=false`,
`POST /generate-tests` does return 400 (with error `Code analysis failed`),
but `POST /analyze-code` returns the failed `AnalysisResult` verbatim with
status 200. -/
theorem C1_amended (env : Env) (now : PyDateTime) (body : Option ReqBody)
    (hfail : ∀ s l, (env.analyze s l).success = false) :
    (∀ s l, Event.analyzeCall s l ∈ (generate_tests env now body).2 →
      (generate_tests env now body).1.status = 400 ∧
      ∃ d, (generate_tests env now body).1.body =
        RespBody.errObj "Code analysis failed" d) ∧
    (∀ s l, Event.analyzeCall s l ∈ (analyze_code env body).2 →
      (analyze_code env body).1.status = 200 ∧
      ∃ ar, (analyze_code env body).1.body = RespBody.analysisObj ar ∧
        ar.success = false) := by
  constructor
  · intro s l hmem
    rcases body with _ | data
    · simp [generate_tests] at hmem
    · by_cases hT : data.isTruthy = true
      · by_cases hE : (!optTruthy data.source_code && !optTruthy data.gcs_path) = true
        · rw [generate_tests_noFields env now data hT hE] at hmem
          simp at hmem
        · have hE' : (!optTruthy data.source_code && !optTruthy data.gcs_path) = false := by
            simpa using hE
          rcases hres : gt_resolveSource env data.source_code data.gcs_path with ⟨r, tr⟩
          rcases r with e | src
          · rw [generate_tests_resolveErr env now data e tr hT hE' hres] at hmem
            exfalso
            rcases gt_resolve_trace env data.source_code data.gcs_path with h | ⟨gp, _, h⟩ <;>
              rw [hres] at h <;> simp_all
          · rw [generate_tests_run env now data src tr _ _ hT hE' hres
              (aag_analyzeFail env now src (data.language.getD "python")
                (data.test_types.getD ["unit", "edge", "negative"])
                (data.framework.getD "pytest") (hfail src _))]
            exact ⟨rfl, _, rfl⟩
      · have hT' : data.isTruthy = false := by simpa using hT
        rw [generate_tests_emptyBody env now data hT'] at hmem
        simp at hmem
  · intro s l hmem
    rcases body with _ | data
    · simp [analyze_code] at hmem
    · rcases hres : ac_resolveSource env data.source_code data.gcs_path with ⟨r, tr⟩
      have htr : tr = [] ∨ ∃ gp, tr = [Event.storageRead gp] := by
        rcases ac_resolve_trace env data.source_code data.gcs_path with h | ⟨gp, _, h⟩ <;>
          rw [hres] at h
        · exact Or.inl h
        · exact Or.inr ⟨gp, h⟩
      rcases r with e | sc
      · rw [analyze_code_err env data e tr hres] at hmem
        exfalso
        rcases htr with h | ⟨gp, h⟩ <;> subst h <;> simp_all
      · by_cases hsc : optTruthy sc = false
        · rw [analyze_code_noSource env data sc tr hres hsc] at hmem
          exfalso
          rcases htr with h | ⟨gp, h⟩ <;> subst h <;> simp_all
        · have hsrc : ∃ src, sc = some src ∧ src.isEmpty = false := by
            rcases sc with _ | src
            · simp [optTruthy] at hsc
            · exact ⟨src, rfl, by simpa [optTruthy] using hsc⟩
          obtain ⟨src, rfl, hsrc⟩ := hsrc
          rw [analyze_code_200 env data src tr hres hsrc]
          exact ⟨rfl, env.analyze src (data.language.getD "python"), rfl, hfail _ _⟩

/-- C1 witness: an always-failing analyzer with an inline source gets a 400
from `POST /generate-tests`. -/
theorem C1_amended_witness :
    (generate_tests envAnalyzeFail dt0 (some reqInline)).1.status = 400 ∧
    ∃ d, (generate_tests envAnalyzeFail dt0 (some reqInline)).1.body =
      RespBody.errObj "Code analysis failed" d :=
  (C1_amended envAnalyzeFail dt0 (some reqInline) (fun _ _ => rfl)).1
    "def add(a, b): return a + b" "python" (by decide)

/-- C2 counterexample: on `POST /analyze-code` with only a `gcs_path`, the
storage read happens before the required-field check of line 132 runs — the
trace starts with the read and the validation marker comes only after it. -/
theorem C2_counterexample :
    (analyze_code envHappy (some reqGcs)).2 =
      [Event.storageRead "gs://bucket/code.py", Event.requiredOk,
       Event.analyzeCall "def add(a, b): return a + b" "python"] ∧
    noneBefore isStorageRead isRequiredOk (analyze_code envHappy (some reqGcs)).2
      = false := by
  exact ⟨by decide, by decide⟩

/-- C2 amended: on `POST /generate-tests` the required-field validation does
pass before any Storage Gateway, analyzer or model call — no storage read,
storage write, analyzer call or model call precedes the validation marker in
any trace; but on `POST /analyze-code` the optional storage read comes
first — whenever its trace contains a storage read, that read is the very
first event. -/
theorem C2_amended (env : Env) (now : PyDateTime) (body : Option ReqBody) :
    noneBefore isExternalCall isRequiredOk (generate_tests env now body).2 = true ∧
    ∀ p, Event.storageRead p ∈ (analyze_code env body).2 →
      (analyze_code env body).2.head? = some (Event.storageRead p) := by
  constructor
  · rcases gt_trace_head env now body with h | ⟨tl, h⟩ <;> rw [h] <;>
      simp [noneBefore, isRequiredOk]
  · intro p hp
    rcases body with _ | data
    · simp [analyze_code] at hp
    · rcases hres : ac_resolveSource env data.source_code data.gcs_path with ⟨r, tr⟩
      have htr : tr = [] ∨ ∃ gp, tr = [Event.storageRead gp] := by
        rcases ac_resolve_trace env data.source_code data.gcs_path with h | ⟨gp, _, h⟩ <;>
          rw [hres] at h
        · exact Or.inl h
        · exact Or.inr ⟨gp, h⟩
      rcases r with e | sc
      · rw [analyze_code_err env data e tr hres] at hp ⊢
        rcases htr with h | ⟨gp, h⟩ <;> subst h <;> simp_all
      · by_cases hsc : optTruthy sc = false
        · rw [analyze_code_noSource env data sc tr hres hsc] at hp ⊢
          rcases htr with h | ⟨gp, h⟩ <;> subst h <;> simp_all
        · have hsrc : ∃ src, sc = some src ∧ src.isEmpty = false := by
            rcases sc with _ | src
            · simp [optTruthy] at hsc
            · exact ⟨src, rfl, by simpa [optTruthy] using hsc⟩
          obtain ⟨src, rfl, hsrc⟩ := hsrc
          rw [analyze_code_200 env data src tr hres hsrc] at hp ⊢
          rcases htr with h | ⟨gp, h⟩ <;> subst h <;> simp_all

/-- C2 witness: the storage read heads the `/analyze-code` trace. -/
theorem C2_amended_witness :
    (analyze_code envHappy (some reqGcs)).2.head? =
      some (Event.storageRead "gs://bucket/code.py") :=
  (C2_amended envHappy dt0 (some reqGcs)).2 "gs://bucket/code.py" (by decide)

/-- C3 counterexample: a malformed `gcs_path` makes `POST /generate-tests`
answer 500 (generic `Internal server error`), not the 400 the claim
requires. -/
theorem C3_counterexample :
    (generate_tests envHappy dt0 (some reqBadPath)).1.status = 500 ∧
    ¬(generate_tests envHappy dt0 (some reqBadPath)).1.status = 400 := by
  decide

/-- C3 amended: for every truthy `gcs_path` not matching
`scheme://bucket/key`, the storage read does fail before any network call
(the download raises the `ValueError` for a missing `gs://` scheme or the
`IndexError` for a missing `/`, emitting no storage event), but the generic
exception handler turns this into a 500 `Internal server error` response,
not a 400 validation error. -/
theorem C3_amended (env : Env) (now : PyDateTime) (data : ReqBody) (gp : String)
    (hgp : data.gcs_path = some gp) (hne : gp.isEmpty = false)
    (hbad : gcsWellFormed gp = false) :
    (download_from_gcs env gp).2 = [] ∧
    ∃ e, download_from_gcs env gp = (Except.error e, []) ∧
      (e = PyErr.valueError "GCS path must start with gs://" ∨
        e = PyErr.indexError "list index out of range") ∧
      generate_tests env now (some data) =
        (⟨.errObj "Internal server error" (some (some e.str)), 500⟩,
         [Event.requiredOk]) := by
  obtain ⟨htr, herr⟩ := download_malformed env gp hbad
  have hT : data.isTruthy = true := by simp [ReqBody.isTruthy, hgp]
  have hE : (!optTruthy data.source_code && !optTruthy data.gcs_path) = false := by
    simp [hgp, optTruthy, hne]
  obtain ⟨e, hdl, he2⟩ : ∃ e, download_from_gcs env gp = (Except.error e, []) ∧
      (e = PyErr.valueError "GCS path must start with gs://" ∨
        e = PyErr.indexError "list index out of range") := by
    rcases herr with h | h
    · exact ⟨_, by rw [← htr, ← h], Or.inl rfl⟩
    · exact ⟨_, by rw [← htr, ← h], Or.inr rfl⟩
  have heq : gt_resolveSource env data.source_code data.gcs_path =
      (Except.error e, []) := by
    rw [hgp, gt_resolve_gcs env data.source_code gp hne, hdl]
  exact ⟨htr, e, hdl, he2,
    generate_tests_resolveErr env now data e [] hT hE heq⟩

/-- C3 witness: the concrete malformed path `not-a-path`. -/
theorem C3_amended_witness :
    (download_from_gcs envHappy "not-a-path").2 = [] ∧
    ∃ e, download_from_gcs envHappy "not-a-path" = (Except.error e, []) ∧
      (e = PyErr.valueError "GCS path must start with gs://" ∨
        e = PyErr.indexError "list index out of range") ∧
      generate_tests envHappy dt0 (some reqBadPath) =
        (⟨.errObj "Internal server error" (some (some e.str)), 500⟩,
         [Event.requiredOk]) :=
  C3_amended envHappy dt0 reqBadPath "not-a-path" rfl (by decide) (by decide)

/-- C5: on `POST /generate-tests` the storage write happens only after the
model call (no write event precedes the first generator call in any trace),
and when the test generator fails on every input, no object at all is
written to storage and any request that reached the generator gets a
structured 500 `Internal server error` response with details. -/
theorem C5_writeOnlyAfterGenerate (env : Env) (now : PyDateTime)
    (body : Option ReqBody) :
    noneBefore isStorageWrite isGenerateCall (generate_tests env now body).2 = true ∧
    ((∀ s a l t f, ∃ e, env.generate s a l t f = Except.error e) →
      (generate_tests env now body).2.all (fun ev => !isStorageWrite ev) = true ∧
      (Event.generateCall ∈ (generate_tests env now body).2 →
        (generate_tests env now body).1.status = 500 ∧
        ∃ d, (generate_tests env now body).1.body =
          RespBody.errObj "Internal server error" (some (some d)))) := by
  rcases body with _ | data
  · exact ⟨by simp [generate_tests, noneBefore], fun _ =>
      ⟨by simp [generate_tests], fun hmem => by simp [generate_tests] at hmem⟩⟩
  · rcases generate_tests_shape env now data with
      ⟨r0, hgt, hst⟩ |
      ⟨hT, hE, ⟨e, tr, htr, hres, hgt⟩ |
        ⟨src, tr, htr, hres, ⟨e, tr2, ha, hgt⟩ | ⟨resp, tr2, ha, hgt⟩⟩⟩
    · rw [hgt]
      exact ⟨by simp [noneBefore], fun _ =>
        ⟨by simp, fun hmem => by simp at hmem⟩⟩
    · rw [hgt]
      rcases htr with h | ⟨gp, h⟩ <;> subst h <;>
        exact ⟨by simp [noneBefore, isGenerateCall, isStorageWrite], fun _ =>
          ⟨by simp [isStorageWrite], fun hmem => by simp at hmem⟩⟩
    · have hsh := aag_trace_shape env now src (data.language.getD "python")
        (data.test_types.getD ["unit", "edge", "negative"])
        (data.framework.getD "pytest")
      rw [ha] at hsh
      dsimp only at hsh
      rw [hgt]
      constructor
      · rcases htr with h | ⟨gp, h⟩ <;> subst h <;>
          rcases hsh with h2 | h2 | h2 <;> subst h2 <;>
          simp [noneBefore, isGenerateCall, isStorageWrite, isRequiredOk,
            isStorageRead, isAnalyzeCall]
      · intro hgen
        rcases aag_genfail_cases env now src (data.language.getD "python")
            (data.test_types.getD ["unit", "edge", "negative"])
            (data.framework.getD "pytest") hgen with hc | hc | ⟨e', hc⟩ <;>
          rw [hc] at ha <;> simp only [Prod.mk.injEq] at ha
        · simp at ha
        · obtain ⟨he, htr2⟩ := ha
          subst htr2
          constructor
          · rcases htr with h | ⟨gp, h⟩ <;> subst h <;> simp [isStorageWrite]
          · intro hmem
            rcases htr with h | ⟨gp, h⟩ <;> subst h <;> simp at hmem
        · obtain ⟨he, htr2⟩ := ha
          subst htr2
          constructor
          · rcases htr with h | ⟨gp, h⟩ <;> subst h <;> simp [isStorageWrite]
          · intro _
            exact ⟨rfl, e.str, rfl⟩
    · have hsh := aag_trace_shape env now src (data.language.getD "python")
        (data.test_types.getD ["unit", "edge", "negative"])
        (data.framework.getD "pytest")
      rw [ha] at hsh
      dsimp only at hsh
      rw [hgt]
      constructor
      · rcases htr with h | ⟨gp, h⟩ <;> subst h <;>
          rcases hsh with h2 | h2 | h2 <;> subst h2 <;>
          simp [noneBefore, isGenerateCall, isStorageWrite, isRequiredOk,
            isStorageRead, isAnalyzeCall]
      · intro hgen
        rcases aag_genfail_cases env now src (data.language.getD "python")
            (data.test_types.getD ["unit", "edge", "negative"])
            (data.framework.getD "pytest") hgen with hc | hc | ⟨e', hc⟩ <;>
          rw [hc] at ha <;> simp only [Prod.mk.injEq] at ha
        · obtain ⟨hresp, htr2⟩ := ha
          subst htr2
          constructor
          · rcases htr with h | ⟨gp, h⟩ <;> subst h <;> simp [isStorageWrite]
          · intro hmem
            rcases htr with h | ⟨gp, h⟩ <;> subst h <;> simp at hmem
        · simp at ha
        · simp at ha

/-- C5 witness: a generator that always raises yields a 500 with details
once the pipeline reaches the model call. -/
theorem C5_witness :
    (generate_tests envGenFail dt0 (some reqInline)).1.status = 500 ∧
    ∃ d, (generate_tests envGenFail dt0 (some reqInline)).1.body =
      RespBody.errObj "Internal server error" (some (some d)) :=
  ((C5_writeOnlyAfterGenerate envGenFail dt0 (some reqInline)).2
    (fun _ _ _ _ _ => ⟨PyErr.other "quota exceeded", rfl⟩)).2 (by decide)

/-- C6 counterexample: a request carrying both `source_code` and `gcs_path`
is accepted (status 200) rather than rejected as an invalid input shape, and
the text analyzed is the object read from storage, not the inline source. -/
theorem C6_counterexample :
    (generate_tests envHappy dt0 (some reqBoth)).1.status = 200 ∧
    reqBoth.source_code = some "inline" ∧
    reqBoth.gcs_path = some "gs://bucket/code.py" ∧
    Event.analyzeCall "def add(a, b): return a + b" "python"
      ∈ (generate_tests envHappy dt0 (some reqBoth)).2 := by
  decide

/-- C6 amended: for every request on which the analyzer is invoked, the
analyzed text comes from exactly one source — the object at `gcs_path` when
`gcs_path` is truthy (it takes precedence even when `source_code` is also
present), otherwise the inline `source_code` — and source resolution
completes before the analyzer call (no storage read occurs at or after it). -/
theorem C6_amended (env : Env) (now : PyDateTime) (data : ReqBody) (s l : String)
    (hmem : Event.analyzeCall s l ∈ (generate_tests env now (some data)).2) :
    ((∃ gp, data.gcs_path = some gp ∧ gp.isEmpty = false ∧
        (download_from_gcs env gp).1 = Except.ok s) ∨
      (optTruthy data.gcs_path = false ∧ data.source_code = some s)) ∧
    noneAfter isStorageRead isAnalyzeCall (generate_tests env now (some data)).2
      = true := by
  rcases generate_tests_shape env now data with
    ⟨r0, hgt, hst⟩ |
    ⟨hT, hE, ⟨e, tr, htr, hres, hgt⟩ |
      ⟨src, tr, htr, hres, ⟨e, tr2, ha, hgt⟩ | ⟨resp, tr2, ha, hgt⟩⟩⟩
  · rw [hgt] at hmem
    simp at hmem
  · rw [hgt] at hmem
    exfalso
    rcases htr with h | ⟨gp, h⟩ <;> subst h <;> simp at hmem
  · have hsh := aag_trace_shape env now src (data.language.getD "python")
      (data.test_types.getD ["unit", "edge", "negative"])
      (data.framework.getD "pytest")
    rw [ha] at hsh
    dsimp only at hsh
    rw [hgt] at hmem ⊢
    have hsl : s = src := by
      rcases htr with h | ⟨gp, h⟩ <;> subst h <;>
        rcases hsh with h2 | h2 | h2 <;> subst h2 <;>
        simp at hmem <;> exact hmem.1
    subst hsl
    constructor
    · rcases gt_resolve_inv env data.source_code data.gcs_path s tr hres with
        ⟨gp, hg, hne, hok⟩ | ⟨hgcs, hsc⟩
      · exact Or.inl ⟨gp, hg, hne, hok⟩
      · refine Or.inr ⟨hgcs, ?_⟩
        have hT2 : optTruthy data.source_code = true := by
          rw [hgcs] at hE
          simpa using hE
        rcases hq : data.source_code with _ | t
        · rw [hq] at hT2
          simp [optTruthy] at hT2
        · rw [hq] at hsc
          simpa using congrArg some hsc
    · rcases htr with h | ⟨gp, h⟩ <;> subst h <;>
        rcases hsh with h2 | h2 | h2 <;> subst h2 <;>
        simp [noneAfter, isStorageRead, isAnalyzeCall, isRequiredOk]
  · have hsh := aag_trace_shape env now src (data.language.getD "python")
      (data.test_types.getD ["unit", "edge", "negative"])
      (data.framework.getD "pytest")
    rw [ha] at hsh
    dsimp only at hsh
    rw [hgt] at hmem ⊢
    have hsl : s = src := by
      rcases htr with h | ⟨gp, h⟩ <;> subst h <;>
        rcases hsh with h2 | h2 | h2 <;> subst h2 <;>
        simp at hmem <;> exact hmem.1
    subst hsl
    constructor
    · rcases gt_resolve_inv env data.source_code data.gcs_path s tr hres with
        ⟨gp, hg, hne, hok⟩ | ⟨hgcs, hsc⟩
      · exact Or.inl ⟨gp, hg, hne, hok⟩
      · refine Or.inr ⟨hgcs, ?_⟩
        have hT2 : optTruthy data.source_code = true := by
          rw [hgcs] at hE
          simpa using hE
        rcases hq : data.source_code with _ | t
        · rw [hq] at hT2
          simp [optTruthy] at hT2
        · rw [hq] at hsc
          simpa using congrArg some hsc
    · rcases htr with h | ⟨gp, h⟩ <;> subst h <;>
        rcases hsh with h2 | h2 | h2 <;> subst h2 <;>
        simp [noneAfter, isStorageRead, isAnalyzeCall, isRequiredOk]

/-- C6 witness: a request with only a `gcs_path` analyzes the downloaded
object. -/
theorem C6_amended_witness :
    ((∃ gp, reqGcs.gcs_path = some gp ∧ gp.isEmpty = false ∧
        (download_from_gcs envHappy gp).1 = Except.ok "def add(a, b): return a + b") ∨
      (optTruthy reqGcs.gcs_path = false ∧
        reqGcs.source_code = some "def add(a, b): return a + b")) ∧
    noneAfter isStorageRead isAnalyzeCall
      (generate_tests envHappy dt0 (some reqGcs)).2 = true :=
  C6_amended envHappy dt0 reqGcs "def add(a, b): return a + b" "python" (by decide)

/-- C7: every 200 response of `POST /generate-tests` reports as `gcs_path`
the address `gs://` + configured bucket + `/` + key, where the key is
exactly `generated_tests/` + timestamp + `_tests.py`; the object was written
under that key, the response's `metadata.timestamp` is that same timestamp,
and the timestamp has the shape `YYYYMMDD_HHMMSS` (eight digits, an
underscore, six digits). -/
theorem C7_timestampedKey (env : Env) (now : PyDateTime) (body : Option ReqBody)
    (r : GenResponse)
    (h : (generate_tests env now body).1 = ⟨.genObj r, 200⟩) :
    r.gcs_path = "gs://" ++ env.bucketName ++ "/" ++
      ("generated_tests/" ++ strftime_Ymd_HMS now ++ "_tests.py") ∧
    Event.storageWrite ("generated_tests/" ++ strftime_Ymd_HMS now ++ "_tests.py")
      ∈ (generate_tests env now body).2 ∧
    r.timestamp = strftime_Ymd_HMS now ∧
    timestampFormatOk (strftime_Ymd_HMS now) = true := by
  obtain ⟨data, src, a, g, -, -, -, -, hr, hmem⟩ := gt_200_inv env now body r h
  subst hr
  exact ⟨rfl, hmem, rfl, strftime_format now⟩

/-- C7 witness: the happy-path request persists under the timestamped key. -/
theorem C7_witness :
    rHappy.gcs_path = "gs://" ++ envHappy.bucketName ++ "/" ++
      ("generated_tests/" ++ strftime_Ymd_HMS dt0 ++ "_tests.py") ∧
    Event.storageWrite ("generated_tests/" ++ strftime_Ymd_HMS dt0 ++ "_tests.py")
      ∈ (generate_tests envHappy dt0 (some reqInline)).2 ∧
    rHappy.timestamp = strftime_Ymd_HMS dt0 ∧
    timestampFormatOk (strftime_Ymd_HMS dt0) = true :=
  C7_timestampedKey envHappy dt0 (some reqInline) rHappy (by decide)

/-- C8: every 200 response of `POST /generate-tests` carries `success`,
`generated_tests`, `gcs_path`, the metadata fields and `analysis_summary`,
where `functions_analyzed` is the length of the analysis result's functions
list, `test_cases_generated` is the generator's `test_count`, and
`generated_tests` is its `test_code`. -/
theorem C8_responseShape (env : Env) (now : PyDateTime) (body : Option ReqBody)
    (r : GenResponse)
    (h : (generate_tests env now body).1 = ⟨.genObj r, 200⟩) :
    ∃ data a g,
      body = some data ∧
      ∃ src,
        (env.analyze src (data.language.getD "python")).success = true ∧
        (env.analyze src (data.language.getD "python")).analysis = some a ∧
        env.generate src a (data.language.getD "python")
          (data.test_types.getD ["unit", "edge", "negative"])
          (data.framework.getD "pytest") = Except.ok g ∧
        r.success = true ∧
        r.generated_tests = g.test_code ∧
        r.functions_analyzed = a.functions.length ∧
        r.test_cases_generated = g.test_count ∧
        r.test_types = data.test_types.getD ["unit", "edge", "negative"] ∧
        r.framework = data.framework.getD "pytest" ∧
        r.timestamp = strftime_Ymd_HMS now ∧
        r.analysis_summary = a.summary ∧
        r.gcs_path = "gs://" ++ env.bucketName ++ "/" ++
          ("generated_tests/" ++ strftime_Ymd_HMS now ++ "_tests.py") := by
  obtain ⟨data, src, a, g, hb, hs, han, hg, hr, -⟩ := gt_200_inv env now body r h
  subst hr
  exact ⟨data, a, g, hb, src, hs, han, hg, rfl, rfl, rfl, rfl, rfl, rfl, rfl, rfl, rfl⟩

/-- C8 witness: the happy-path 200 response. -/
theorem C8_witness :
    ∃ data a g,
      (some reqInline : Option ReqBody) = some data ∧
      ∃ src,
        (envHappy.analyze src (data.language.getD "python")).success = true ∧
        (envHappy.analyze src (data.language.getD "python")).analysis = some a ∧
        envHappy.generate src a (data.language.getD "python")
          (data.test_types.getD ["unit", "edge", "negative"])
          (data.framework.getD "pytest") = Except.ok g ∧
        rHappy.success = true ∧
        rHappy.generated_tests = g.test_code ∧
        rHappy.functions_analyzed = a.functions.length ∧
        rHappy.test_cases_generated = g.test_count ∧
        rHappy.test_types = data.test_types.getD ["unit", "edge", "negative"] ∧
        rHappy.framework = data.framework.getD "pytest" ∧
        rHappy.timestamp = strftime_Ymd_HMS dt0 ∧
        rHappy.analysis_summary = a.summary ∧
        rHappy.gcs_path = "gs://" ++ envHappy.bucketName ++ "/" ++
          ("generated_tests/" ++ strftime_Ymd_HMS dt0 ++ "_tests.py") :=
  C8_responseShape envHappy dt0 (some reqInline) rHappy (by decide)

end Frontend
